import Mathlib

/-!
Shallow embedding of `src/telegram_bot.py` (class `VideoKickBot`) and proofs about it.

The Python handlers mutate shared in-memory state (`pending_users`, `verified_users`,
`user_points`, `stats`, settings flags) guarded by `pending_users_lock`; each handler
runs its check-and-mutate section without an intervening `await`, so each handler invocation
is modelled as one atomic state transition, and concurrency as an arbitrary interleaving
(a list) of such transitions.  Python dicts are insertion-ordered association lists;
Python sets are lists with membership-guarded insertion.  `threading.Timer` objects are
modelled as `TimerHandle` values: a started timer is a member of `liveTimers`, `cancel`
removes it.  Gateway (Telegram API) calls can fail; a failure aborts the remainder of
the `try` block, which is modelled by a `gatewayOk : Bool` parameter.
-/

namespace VideoKickBot

/-- A `(chat_id, user_id)` key, as used for `pending_users`, `verified_users` and
`user_points` in the source. -/
abbrev Key := Int × Int

/-- A started `threading.Timer`: its identity, the key it will fire for, and the
duration (`self.timeout_seconds` at arming time) it was armed with. -/
structure TimerHandle where
  id : Nat
  key : Key
  duration : Int
  deriving DecidableEq, Repr

/-- One value of the `pending_users` dict:
a dict holding the timer, the join time `datetime.now()` and the user name. -/
structure PendingEntry where
  timerId : Nat
  joinTime : ℚ
  userName : String
  deriving DecidableEq, Repr

/-- The `self.stats` dict of `VideoKickBot.__init__`. -/
structure Stats where
  usersKicked : Nat
  usersVerified : Nat
  totalJoins : Nat
  spamBlocked : Nat
  linksBlocked : Nat
  suspiciousKicked : Nat
  deriving DecidableEq, Repr

/-- The mutable state of a `VideoKickBot` instance (fields of `__init__` that the
handlers read or write), plus the bookkeeping of live `threading.Timer`s. -/
structure BotState where
  timeoutSeconds : Int
  pendingUsers : List (Key × PendingEntry)
  verifiedUsers : List Key
  botPaused : Bool
  interactionMode : Bool
  antiSpamEnabled : Bool
  bannedWords : List String
  rewardSystemEnabled : Bool
  userPoints : List (Key × Int)
  scheduledMode : Bool
  activeHoursStart : Int
  activeHoursEnd : Int
  stats : Stats
  liveTimers : List TimerHandle
  nextTimerId : Nat
  deriving DecidableEq, Repr

/-- Dict lookup (`d[k]` / `k in d`): Python dict keys are unique, so first match. -/
def dlookup {β : Type} : List (Key × β) → Key → Option β
  | [], _ => none
  | (k', v) :: rest, k => if k' = k then some v else dlookup rest k

/-- Dict write `d[k] = v`: updates in place (keeping the position of the key) when the key
exists, appends otherwise — Python dicts preserve insertion order. -/
def dinsert {β : Type} : List (Key × β) → Key → β → List (Key × β)
  | [], k, v => [(k, v)]
  | (k', v') :: rest, k, v =>
    if k' = k then (k, v) :: rest else (k', v') :: dinsert rest k v

/-- Dict delete `del d[k]`: removes the (unique) binding of `k`. -/
def ddelete {β : Type} : List (Key × β) → Key → List (Key × β)
  | [], _ => []
  | (k', v') :: rest, k => if k' = k then rest else (k', v') :: ddelete rest k

/-- Set insertion `s.add(k)`. -/
def sinsert (s : List Key) (k : Key) : List Key :=
  if k ∈ s then s else s ++ [k]

/-- Models `timer.cancel()`: the timer with this id is no longer live. -/
def cancelTimer (ts : List TimerHandle) (i : Nat) : List TimerHandle :=
  ts.filter (fun t => t.id ≠ i)

/-- Observable result of one handler invocation. -/
inductive Outcome where
  | noop
  | welcomePaused (name : String)
  | welcomeInteraction (name : String)
  | welcomeTimer (name : String) (timer : Int)
  | reminder (name : String) (timer : Int)
  | verified (elapsed : ℚ) (points : Int)
  | expired (kickDelivered : Bool) (name : String)
  | spamRemoved (reason : String)
  | timerSet (n : Int)
  | rangeError
  | usageError
  | scheduleShown (mode : Bool) (startH endH : Int)
  | scheduleToggled (mode : Bool)
  | hoursSet (startH endH : Int)
  deriving DecidableEq, Repr

/-- Embeds `_handle_new_member(chat_id, user_id, user_name, context)` (lines 165-247).
The total-joins counter is incremented before the paused/interaction checks; in the
normal branch the timer of an existing entry is cancelled, and a fresh entry with a
fresh started timer of duration `timeout_seconds` replaces it. -/
def handleNewMember (s : BotState) (chatId userId : Int) (userName : String)
    (now : ℚ) : BotState × Outcome :=
  let userKey : Key := (chatId, userId)
  let s := { s with stats := { s.stats with totalJoins := s.stats.totalJoins + 1 } }
  if s.botPaused then
    (s, Outcome.welcomePaused userName)
  else if s.interactionMode then
    (s, Outcome.welcomeInteraction userName)
  else
    let timers :=
      match dlookup s.pendingUsers userKey with
      | some entry => cancelTimer s.liveTimers entry.timerId
      | none => s.liveTimers
    ({ s with
        pendingUsers := dinsert s.pendingUsers userKey
          ⟨s.nextTimerId, now, userName⟩,
        liveTimers := timers ++ [⟨s.nextTimerId, userKey, s.timeoutSeconds⟩],
        nextTimerId := s.nextTimerId + 1 },
     Outcome.welcomeTimer userName s.timeoutSeconds)

/-- Embeds `handle_text_message` (lines 748-793): in interaction mode, a first message from an
untracked, unverified user arms the verification timer. -/
def handleTextMessage (s : BotState) (chatId userId : Int) (userName : String)
    (now : ℚ) : BotState × Outcome :=
  if !s.interactionMode || s.botPaused then
    (s, Outcome.noop)
  else
    let userKey : Key := (chatId, userId)
    if (dlookup s.pendingUsers userKey).isNone ∧ userKey ∉ s.verifiedUsers then
      ({ s with
          pendingUsers := dinsert s.pendingUsers userKey
            ⟨s.nextTimerId, now, userName⟩,
          liveTimers := s.liveTimers ++ [⟨s.nextTimerId, userKey, s.timeoutSeconds⟩],
          nextTimerId := s.nextTimerId + 1 },
       Outcome.reminder userName s.timeoutSeconds)
    else
      (s, Outcome.noop)

/-- The reward computation of `handle_video_message` (lines 349-355). -/
def awardPoints (responseSeconds : ℚ) : Int :=
  if responseSeconds ≤ 10 then 100
  else if responseSeconds ≤ 30 then 50
  else 25

/-- Embeds `handle_video_message` (lines 315-383): if the sender is pending, cancel the timer,
compute the response time, move the key from `pending_users` to `verified_users`,
bump `users_verified`, and award points when the reward system is enabled. -/
def handleVideoMessage (s : BotState) (chatId userId : Int) (userName : String)
    (now : ℚ) : BotState × Outcome :=
  let userKey : Key := (chatId, userId)
  match dlookup s.pendingUsers userKey with
  | none => (s, Outcome.noop)
  | some entry =>
    let responseSeconds := now - entry.joinTime
    let s := { s with
      pendingUsers := ddelete s.pendingUsers userKey,
      liveTimers := cancelTimer s.liveTimers entry.timerId,
      verifiedUsers := sinsert s.verifiedUsers userKey,
      stats := { s.stats with usersVerified := s.stats.usersVerified + 1 } }
    if s.rewardSystemEnabled then
      let pointsAwarded := awardPoints responseSeconds
      let previous := (dlookup s.userPoints userKey).getD 0
      ({ s with userPoints := dinsert s.userPoints userKey (previous + pointsAwarded) },
       Outcome.verified responseSeconds pointsAwarded)
    else
      (s, Outcome.verified responseSeconds 0)

/-- Embeds `_kick_user_timeout` (lines 249-313): the timer callback.  If the key is no
longer pending, return.  Otherwise remove the entry; if the key is verified, return.
Then the gateway sequence ban → unban → notify runs, and only after it succeeds is
the users-kicked counter incremented — a gateway failure (`Forbidden`, `BadRequest`,
and so on) jumps to an `except` handler that only logs, leaving the counter
untouched. -/
def kickUserTimeout (s : BotState) (chatId userId : Int) (userName : String)
    (gatewayOk : Bool) : BotState × Outcome :=
  let userKey : Key := (chatId, userId)
  if (dlookup s.pendingUsers userKey).isSome then
    let s := { s with pendingUsers := ddelete s.pendingUsers userKey }
    if userKey ∈ s.verifiedUsers then
      (s, Outcome.noop)
    else if gatewayOk then
      ({ s with stats := { s.stats with usersKicked := s.stats.usersKicked + 1 } },
       Outcome.expired true userName)
    else
      (s, Outcome.expired false userName)
  else
    (s, Outcome.noop)

/-- Embeds `set_timer_command` (lines 385-418) after the admin check, with the argument
already parsed as an integer. -/
def setTimerCommand (s : BotState) (newTimeout : Int) : BotState × Outcome :=
  if newTimeout < 10 ∨ newTimeout > 600 then
    (s, Outcome.rangeError)
  else
    ({ s with timeoutSeconds := newTimeout }, Outcome.timerSet newTimeout)

/-- Does the second character list start with the first? -/
def charsStartWith : List Char → List Char → Bool
  | [], _ => true
  | _ :: _, [] => false
  | c :: cs, d :: ds => c == d && charsStartWith cs ds

/-- Does the second character list contain the first as a contiguous run? -/
def charsContain (sub : List Char) : List Char → Bool
  | [] => charsStartWith sub []
  | d :: ds => charsStartWith sub (d :: ds) || charsContain sub ds

/-- Python `sub in hay` on strings: substring test. -/
def strContains (hay sub : String) : Bool :=
  charsContain sub.toList hay.toList

/-- Python `text.lower()`: character-wise lowercase. -/
def pyLower (s : String) : String :=
  ⟨s.toList.map Char.toLower⟩

/-- The fixed link substrings of `handle_spam_detection` (line 815). -/
def linkPatterns : List String := ["http", "www.", ".com", ".org", "t.me"]

/-- The fixed patterns of `_is_suspicious_username` (lines 841-844). -/
def suspiciousPatterns : List String :=
  ["crypto", "bitcoin", "forex", "investment", "profit", "earn",
   "casino", "betting", "loan", "pharmacy", "pills"]

/-- The default `self.banned_words` of `__init__` (line 62). -/
def defaultBannedWords : List String :=
  ["spam", "promotion", "advertisement", "buy now", "click here"]

/-- Embeds `_is_suspicious_username` (lines 835-847). -/
def isSuspiciousUsername (username fullName : String) : Bool :=
  let combined := pyLower (username ++ " " ++ fullName)
  suspiciousPatterns.any (fun p => strContains combined p)

/-- Which `self.stats` counter `_handle_spam_violation` receives as `stat_key`. -/
inductive StatKey where
  | spamBlocked
  | linksBlocked
  | suspiciousKicked
  deriving DecidableEq, Repr

/-- Models the stats increment selected by the `stat_key` argument. -/
def bumpStat (st : Stats) : StatKey → Stats
  | .spamBlocked => { st with spamBlocked := st.spamBlocked + 1 }
  | .linksBlocked => { st with linksBlocked := st.linksBlocked + 1 }
  | .suspiciousKicked => { st with suspiciousKicked := st.suspiciousKicked + 1 }

/-- Embeds `_handle_spam_violation` (lines 849-877): delete the message, increment the
counter, kick (ban+unban), notify.  The only internal-state effect is the stats
increment; a gateway failure at the initial `delete_message` skips it.  Note the
function never touches `pending_users` or `liveTimers`. -/
def handleSpamViolation (s : BotState) (reason : String) (statKey : StatKey)
    (gatewayOk : Bool) : BotState × Outcome :=
  if gatewayOk then
    ({ s with stats := bumpStat s.stats statKey }, Outcome.spamRemoved reason)
  else
    (s, Outcome.noop)

/-- An inbound message as seen by `handle_spam_detection`: `message.text` is `None`
for non-text media, and Python treats the empty string as falsy in
`if message.text and ...`. -/
structure IncomingMessage where
  chatId : Int
  userId : Int
  username : String
  fullName : String
  text : Option String
  deriving DecidableEq, Repr

/-- Embeds `handle_spam_detection` (lines 795-833): link substrings first, then the first
matching banned word, then suspicious sender identity; each branch short-circuits
with a `return`. -/
def handleSpamDetection (s : BotState) (msg : IncomingMessage)
    (gatewayOk : Bool) : BotState × Outcome :=
  if !s.antiSpamEnabled || s.botPaused then
    (s, Outcome.noop)
  else
    let userKey : Key := (msg.chatId, msg.userId)
    if userKey ∈ s.verifiedUsers then
      (s, Outcome.noop)
    else
      let text := msg.text.getD ""
      let textLower := pyLower text
      if text ≠ "" ∧ linkPatterns.any (fun p => strContains textLower p) then
        handleSpamViolation s "posting links" .linksBlocked gatewayOk
      else
        match (if text ≠ "" then s.bannedWords.find? (fun w => strContains textLower w)
               else none) with
        | some w =>
          handleSpamViolation s ("using banned word: " ++ w) .spamBlocked gatewayOk
        | none =>
          if isSuspiciousUsername msg.username msg.fullName then
            handleSpamViolation s "suspicious username" .suspiciousKicked gatewayOk
          else
            (s, Outcome.noop)

/-- Ordering used by the leaderboard: descending by accumulated points. -/
def pointsGE (a b : Key × Int) : Prop := b.2 ≤ a.2

instance : DecidableRel pointsGE := fun a b => decidable_of_iff (b.2 ≤ a.2) Iff.rfl

instance : IsTotal (Key × Int) pointsGE := ⟨fun a b => le_total b.2 a.2⟩

instance : IsTrans (Key × Int) pointsGE := ⟨fun _ _ _ h1 h2 => le_trans h2 h1⟩

/-- Models `sorted(self.user_points.items(), key=lambda x: x[1], reverse=True)` of
`leaderboard_command` (line 684): the Python `sorted` builtin is a stable sort and with
`reverse=True` orders by descending points, ties keeping their original (insertion)
order — exactly a stable insertion sort under `pointsGE`. -/
def sortByPointsDesc (l : List (Key × Int)) : List (Key × Int) :=
  List.insertionSort pointsGE l

/-- Embeds `leaderboard_command` (lines 676-705): the displayed entries are
`sorted_users[:10]`. -/
def leaderboardTop (s : BotState) : List (Key × Int) :=
  (sortByPointsDesc s.userPoints).take 10

/-- The arguments of `schedule_command` as parsed from `context.args`. -/
inductive ScheduleArgs where
  | query
  | toggle
  | hours (startH endH : Int)
  | malformed
  deriving DecidableEq, Repr

/-- Embeds `schedule_command` (lines 707-746) after the admin check: no args echoes the
current settings; `toggle` flips `scheduled_mode`; two integers in 0..23 set
`active_hours`; anything else changes nothing. -/
def scheduleCommand (s : BotState) (a : ScheduleArgs) : BotState × Outcome :=
  match a with
  | .query =>
    (s, Outcome.scheduleShown s.scheduledMode s.activeHoursStart s.activeHoursEnd)
  | .toggle =>
    ({ s with scheduledMode := !s.scheduledMode }, Outcome.scheduleToggled (!s.scheduledMode))
  | .hours startH endH =>
    if 0 ≤ startH ∧ startH ≤ 23 ∧ 0 ≤ endH ∧ endH ≤ 23 then
      ({ s with activeHoursStart := startH, activeHoursEnd := endH },
       Outcome.hoursSet startH endH)
    else
      (s, Outcome.rangeError)
  | .malformed => (s, Outcome.usageError)

/-! ### Association-list (Python dict) lemmas -/

theorem dlookup_eq_none {β : Type} (d : List (Key × β)) (k : Key) :
    dlookup d k = none ↔ k ∉ d.map Prod.fst := by
  induction d with
  | nil => simp [dlookup]
  | cons p rest ih =>
    obtain ⟨k', v'⟩ := p
    by_cases h : k' = k
    · subst h
      simp [dlookup]
    · simp only [dlookup, if_neg h, List.map_cons, List.mem_cons, ih]
      constructor
      · rintro hn hm
        rcases hm with rfl | hm
        · exact h rfl
        · exact hn hm
      · intro hn hm
        exact hn (Or.inr hm)

theorem dlookup_dinsert_self {β : Type} (d : List (Key × β)) (k : Key) (v : β) :
    dlookup (dinsert d k v) k = some v := by
  induction d with
  | nil => simp [dinsert, dlookup]
  | cons p rest ih =>
    obtain ⟨k', v'⟩ := p
    by_cases h : k' = k
    · simp [dinsert, h, dlookup]
    · simp [dinsert, h, dlookup, ih]

theorem dinsert_of_lookup_none {β : Type} {d : List (Key × β)} {k : Key} (v : β)
    (h : dlookup d k = none) : dinsert d k v = d ++ [(k, v)] := by
  induction d with
  | nil => simp [dinsert]
  | cons p rest ih =>
    obtain ⟨k', v'⟩ := p
    by_cases hk : k' = k
    · simp [dlookup, hk] at h
    · simp only [dlookup, if_neg hk] at h
      simp [dinsert, hk, ih h]

theorem dlookup_ddelete_self {β : Type} {d : List (Key × β)} (k : Key)
    (h : (d.map Prod.fst).Nodup) : dlookup (ddelete d k) k = none := by
  induction d with
  | nil => simp [ddelete, dlookup]
  | cons p rest ih =>
    obtain ⟨k', v'⟩ := p
    simp only [List.map_cons, List.nodup_cons] at h
    by_cases hk : k' = k
    · subst hk
      simp only [ddelete, if_pos rfl]
      exact (dlookup_eq_none rest k').mpr h.1
    · simp [ddelete, hk, dlookup, ih h.2]

/-! ### Sample states for witnesses and counterexamples -/

/-- All-zero statistics, as in `__init__`. -/
def emptyStats : Stats := ⟨0, 0, 0, 0, 0, 0⟩

/-- The state of a freshly constructed `VideoKickBot(token, 30)`. -/
def initialState : BotState :=
  { timeoutSeconds := 30
    pendingUsers := []
    verifiedUsers := []
    botPaused := false
    interactionMode := false
    antiSpamEnabled := true
    bannedWords := defaultBannedWords
    rewardSystemEnabled := true
    userPoints := []
    scheduledMode := false
    activeHoursStart := 8
    activeHoursEnd := 22
    stats := emptyStats
    liveTimers := []
    nextTimerId := 0 }

/-- A state in which user `(1, 7)` is pending with a live timer armed at time 0. -/
def pendingState : BotState :=
  { initialState with
      pendingUsers := [((1, 7), ⟨0, 0, "u"⟩)]
      liveTimers := [⟨0, (1, 7), 30⟩]
      nextTimerId := 1 }

/-- Like `pendingState` but with the reward system toggled off. -/
def pendingStateNoReward : BotState :=
  { pendingState with rewardSystemEnabled := false }

/-! ### C4: `/settimer` validation and effect -/

/-- C4: `set_timer_command` with an integer outside [10, 600] reports a range error and
leaves `timeout_seconds` unchanged; inside [10, 600] it sets `timeout_seconds`, and any
join handled in a state carrying the new timeout (bot active, interaction mode off)
arms a timer of exactly that duration. -/
theorem settimer_validation_and_effect (s : BotState) (n : Int) :
    ((n < 10 ∨ 600 < n) → setTimerCommand s n = (s, Outcome.rangeError)) ∧
    (10 ≤ n → n ≤ 600 →
      (setTimerCommand s n).1 = { s with timeoutSeconds := n } ∧
      (setTimerCommand s n).2 = Outcome.timerSet n) ∧
    (∀ s' : BotState, s'.timeoutSeconds = n → s'.botPaused = false →
      s'.interactionMode = false → ∀ cid uid : Int, ∀ nm : String, ∀ now : ℚ,
      (⟨s'.nextTimerId, (cid, uid), n⟩ : TimerHandle) ∈
        (handleNewMember s' cid uid nm now).1.liveTimers ∧
      (handleNewMember s' cid uid nm now).2 = Outcome.welcomeTimer nm n) := by
  refine ⟨?_, ?_, ?_⟩
  · intro h
    unfold setTimerCommand
    rw [if_pos h]
  · intro h1 h2
    unfold setTimerCommand
    rw [if_neg (by omega)]
    exact ⟨rfl, rfl⟩
  · intro s' hts hbp him cid uid nm now
    unfold handleNewMember
    simp only [hbp, him, Bool.false_eq_true, if_false, hts]
    cases hdl : dlookup s'.pendingUsers (cid, uid) <;> simp [hdl]

/-- Witness for C4 at `n = 5` (rejected) and `n = 30` (accepted, then a join arms a
30-second timer). -/
theorem settimer_validation_and_effect_witness :
    setTimerCommand initialState 5 = (initialState, Outcome.rangeError) ∧
    (setTimerCommand initialState 30).1 = { initialState with timeoutSeconds := 30 } ∧
    (⟨0, ((1 : Int), (7 : Int)), 30⟩ : TimerHandle) ∈
      (handleNewMember initialState 1 7 "u" 0).1.liveTimers :=
  ⟨(settimer_validation_and_effect initialState 5).1 (by decide),
   ((settimer_validation_and_effect initialState 30).2.1 (by decide) (by decide)).1,
   ((settimer_validation_and_effect initialState 30).2.2 initialState rfl rfl rfl
      1 7 "u" 0).1⟩

/-! ### C5: reward points for a verification -/

/-- C5: for a pending sender, `handle_video_message` awards 100 points when the elapsed
time is at most 10 seconds, 50 when it is more than 10 but at most 30, and 25 otherwise;
with the reward system disabled it awards 0 points and leaves `user_points` untouched. -/
theorem video_reward_points (s : BotState) (cid uid : Int) (nm : String) (now : ℚ)
    (entry : PendingEntry)
    (h : dlookup s.pendingUsers (cid, uid) = some entry) :
    (s.rewardSystemEnabled = true →
      (handleVideoMessage s cid uid nm now).2 =
        Outcome.verified (now - entry.joinTime)
          (if now - entry.joinTime ≤ 10 then 100
           else if now - entry.joinTime ≤ 30 then 50 else 25)) ∧
    (s.rewardSystemEnabled = false →
      (handleVideoMessage s cid uid nm now).2 =
        Outcome.verified (now - entry.joinTime) 0 ∧
      (handleVideoMessage s cid uid nm now).1.userPoints = s.userPoints) := by
  constructor
  · intro hr
    unfold handleVideoMessage
    simp [h, hr, awardPoints]
  · intro hr
    unfold handleVideoMessage
    simp [h, hr]

/-- Witness for C5 at elapsed times 5, 15 and 45 seconds, and with rewards disabled. -/
theorem video_reward_points_witness :
    (handleVideoMessage pendingState 1 7 "u" 5).2 = Outcome.verified 5 100 ∧
    (handleVideoMessage pendingState 1 7 "u" 15).2 = Outcome.verified 15 50 ∧
    (handleVideoMessage pendingState 1 7 "u" 45).2 = Outcome.verified 45 25 ∧
    (handleVideoMessage pendingStateNoReward 1 7 "u" 5).2 = Outcome.verified 5 0 ∧
    (handleVideoMessage pendingStateNoReward 1 7 "u" 5).1.userPoints =
      pendingStateNoReward.userPoints :=
  ⟨((video_reward_points pendingState 1 7 "u" 5 ⟨0, 0, "u"⟩ rfl).1 rfl).trans (by norm_num),
   ((video_reward_points pendingState 1 7 "u" 15 ⟨0, 0, "u"⟩ rfl).1 rfl).trans (by norm_num),
   ((video_reward_points pendingState 1 7 "u" 45 ⟨0, 0, "u"⟩ rfl).1 rfl).trans (by norm_num),
   (((video_reward_points pendingStateNoReward 1 7 "u" 5 ⟨0, 0, "u"⟩ rfl).2 rfl).1).trans
     (by norm_num),
   ((video_reward_points pendingStateNoReward 1 7 "u" 5 ⟨0, 0, "u"⟩ rfl).2 rfl).2⟩

/-! ### C2: rejoin of a verified key -/

/-- A state in which key `(1, 7)` has already been verified and nothing is pending. -/
def verifiedRejoinState : BotState :=
  { initialState with verifiedUsers := [(1, 7)] }

/-- C2 counterexample: for a key already in `verified_users`, `_handle_new_member` (a
rejoin with the bot active and interaction mode off) does create a new pending entry
and does arm a new timer — the claimed "never re-armed" property fails on the code. -/
theorem verified_rejoin_rearms_counterexample :
    ((1, 7) : Key) ∈ verifiedRejoinState.verifiedUsers ∧
    (dlookup (handleNewMember verifiedRejoinState 1 7 "u" 3).1.pendingUsers
      ((1 : Int), (7 : Int))).isSome = true ∧
    ((handleNewMember verifiedRejoinState 1 7 "u" 3).1.liveTimers.filter
      (fun t => t.key = ((1 : Int), (7 : Int)))).length = 1 := by
  refine ⟨by decide, rfl, rfl⟩

/-- C2 (amended): for a key in `verified_users`, `handle_text_message` is a strict
no-op and a firing `_kick_user_timeout` never kicks (no kick outcome, `users_kicked`
unchanged); but `_handle_new_member` does re-arm on rejoin — with the bot active and
interaction mode off it creates a fresh pending entry and arms a fresh timer even for
a verified key, the verified set suppressing only the eventual kick. -/
theorem verified_rejoin_behavior (s : BotState) (cid uid : Int) (nm : String) (now : ℚ)
    (g : Bool) (hv : ((cid, uid) : Key) ∈ s.verifiedUsers) :
    handleTextMessage s cid uid nm now = (s, Outcome.noop) ∧
    (kickUserTimeout s cid uid nm g).2 = Outcome.noop ∧
    (kickUserTimeout s cid uid nm g).1.stats.usersKicked = s.stats.usersKicked ∧
    (s.botPaused = false → s.interactionMode = false →
      dlookup (handleNewMember s cid uid nm now).1.pendingUsers (cid, uid) =
        some ⟨s.nextTimerId, now, nm⟩ ∧
      (⟨s.nextTimerId, (cid, uid), s.timeoutSeconds⟩ : TimerHandle) ∈
        (handleNewMember s cid uid nm now).1.liveTimers) := by
  refine ⟨?_, ?_, ?_, ?_⟩
  · unfold handleTextMessage
    split
    · rfl
    · rw [if_neg (fun hc => hc.2 hv)]
  · unfold kickUserTimeout
    by_cases hp : (dlookup s.pendingUsers ((cid, uid) : Key)).isSome = true
    · simp [hp, hv]
    · simp [hp]
  · unfold kickUserTimeout
    by_cases hp : (dlookup s.pendingUsers ((cid, uid) : Key)).isSome = true
    · simp [hp, hv]
    · simp [hp]
  · intro hbp him
    unfold handleNewMember
    simp only [hbp, him, Bool.false_eq_true, if_false]
    constructor
    · exact dlookup_dinsert_self ..
    · cases hdl : dlookup s.pendingUsers (cid, uid) <;> simp [hdl]

/-- Witness for the amended C2 at a concrete verified key. -/
theorem verified_rejoin_behavior_witness :
    handleTextMessage verifiedRejoinState 1 7 "u" 0 = (verifiedRejoinState, Outcome.noop) ∧
    (kickUserTimeout verifiedRejoinState 1 7 "u" true).2 = Outcome.noop ∧
    (kickUserTimeout verifiedRejoinState 1 7 "u" true).1.stats.usersKicked =
      verifiedRejoinState.stats.usersKicked ∧
    dlookup (handleNewMember verifiedRejoinState 1 7 "u" 0).1.pendingUsers (1, 7) =
      some ⟨0, 0, "u"⟩ ∧
    (⟨0, ((1 : Int), (7 : Int)), 30⟩ : TimerHandle) ∈
      (handleNewMember verifiedRejoinState 1 7 "u" 0).1.liveTimers := by
  have h := verified_rejoin_behavior verifiedRejoinState 1 7 "u" 0 true (by decide)
  exact ⟨h.1, h.2.1, h.2.2.1, (h.2.2.2 rfl rfl).1, (h.2.2.2 rfl rfl).2⟩

/-! ### C9: gateway failure during a timeout kick -/

/-- C9 counterexample: when the timer fires for pending, unverified `(1, 7)` and the
gateway removal fails, the entry is removed but `users_kicked` is NOT incremented (it
stays 0), because the increment sits after the gateway calls inside the `try`. -/
theorem kick_gateway_failure_counterexample :
    pendingState.stats.usersKicked = 0 ∧
    dlookup (kickUserTimeout pendingState 1 7 "u" false).1.pendingUsers
      ((1 : Int), (7 : Int)) = none ∧
    (kickUserTimeout pendingState 1 7 "u" false).1.stats.usersKicked = 0 ∧
    (kickUserTimeout pendingState 1 7 "u" false).2 = Outcome.expired false "u" := by
  refine ⟨rfl, rfl, rfl, rfl⟩

/-- C9 (amended): when the timer fires for a pending, unverified key, the pending
entry is removed and stays removed whether or not the gateway removal succeeds, but
`users_kicked` is incremented only when the gateway sequence succeeds; on failure the
counter is unchanged. -/
theorem kick_timeout_commit (s : BotState) (cid uid : Int) (nm : String) (g : Bool)
    (hp : (dlookup s.pendingUsers (cid, uid)).isSome = true)
    (hv : ((cid, uid) : Key) ∉ s.verifiedUsers)
    (hnd : (s.pendingUsers.map Prod.fst).Nodup) :
    dlookup (kickUserTimeout s cid uid nm g).1.pendingUsers (cid, uid) = none ∧
    (kickUserTimeout s cid uid nm g).1.stats.usersKicked =
      (if g then s.stats.usersKicked + 1 else s.stats.usersKicked) ∧
    (kickUserTimeout s cid uid nm g).2 = Outcome.expired g nm := by
  have hd : dlookup (ddelete s.pendingUsers ((cid, uid) : Key)) (cid, uid) = none :=
    dlookup_ddelete_self _ hnd
  unfold kickUserTimeout
  simp only [hp, if_true]
  rw [if_neg hv]
  cases g <;> simp [hd]

/-- Witness for the amended C9: success increments the counter, failure leaves it. -/
theorem kick_timeout_commit_witness :
    dlookup (kickUserTimeout pendingState 1 7 "u" true).1.pendingUsers (1, 7) = none ∧
    (kickUserTimeout pendingState 1 7 "u" true).1.stats.usersKicked = 1 ∧
    (kickUserTimeout pendingState 1 7 "u" false).1.stats.usersKicked = 0 := by
  have h1 := kick_timeout_commit pendingState 1 7 "u" true rfl (by decide) (by decide)
  have h2 := kick_timeout_commit pendingState 1 7 "u" false rfl (by decide) (by decide)
  exact ⟨h1.1, h1.2.1.trans (by decide), h2.2.1.trans (by decide)⟩

/-! ### C7: spam classification priority -/

/-- C7: with anti-spam on, the bot active and the sender unverified, a non-empty text
containing a link substring is handled as the link violation even when it also contains
a configured banned word: only `links_blocked` is incremented (not `spam_blocked`, not
`suspicious_kicked`) and the reported reason is "posting links". -/
theorem spam_link_priority (s : BotState) (msg : IncomingMessage) (t w : String)
    (ha : s.antiSpamEnabled = true) (hpz : s.botPaused = false)
    (hv : ((msg.chatId, msg.userId) : Key) ∉ s.verifiedUsers)
    (ht : msg.text = some t) (hne : t ≠ "")
    (hlink : linkPatterns.any (fun p => strContains (pyLower t) p) = true)
    (hw : w ∈ s.bannedWords) (hbw : strContains (pyLower t) w = true) :
    handleSpamDetection s msg true =
      ({ s with stats := { s.stats with linksBlocked := s.stats.linksBlocked + 1 } },
       Outcome.spamRemoved "posting links") ∧
    (handleSpamDetection s msg true).1.stats.spamBlocked = s.stats.spamBlocked ∧
    (handleSpamDetection s msg true).1.stats.suspiciousKicked =
      s.stats.suspiciousKicked := by
  have hmain : handleSpamDetection s msg true =
      ({ s with stats := { s.stats with linksBlocked := s.stats.linksBlocked + 1 } },
       Outcome.spamRemoved "posting links") := by
    unfold handleSpamDetection handleSpamViolation bumpStat
    rw [ht]
    simp [ha, hpz, hv, hne, hlink]
  exact ⟨hmain, by rw [hmain], by rw [hmain]⟩

/-- Witness for C7: "spam click http" contains the link substring "http" and the
banned word "spam"; it is classified as a link violation. -/
theorem spam_link_priority_witness :
    handleSpamDetection initialState ⟨1, 9, "user", "Bob", some "spam click http"⟩ true =
      ({ initialState with
          stats := { initialState.stats with linksBlocked := 1 } },
       Outcome.spamRemoved "posting links") ∧
    (handleSpamDetection initialState ⟨1, 9, "user", "Bob", some "spam click http"⟩
      true).1.stats.spamBlocked = 0 :=
  ⟨(spam_link_priority initialState ⟨1, 9, "user", "Bob", some "spam click http"⟩
      "spam click http" "spam" rfl rfl (by decide) rfl (by decide) (by decide)
      (by decide) (by decide)).1,
   (spam_link_priority initialState ⟨1, 9, "user", "Bob", some "spam click http"⟩
      "spam click http" "spam" rfl rfl (by decide) rfl (by decide) (by decide)
      (by decide) (by decide)).2.1⟩

/-! ### C8: spam removal of a pending sender leaves the stale timer -/

/-- C8: a spam violation by the pending sender `(1, 7)` (text "visit http site", a link
violation) does NOT clear the pending entry or the armed timer — `_handle_spam_violation`
never touches `pending_users` — and the stale timer later fires and issues a second
removal for the already-removed user. -/
theorem spam_violation_leaves_pending_entry :
    (handleSpamDetection pendingState ⟨1, 7, "spammer", "Eve", some "visit http site"⟩
      true).1.pendingUsers = pendingState.pendingUsers ∧
    (handleSpamDetection pendingState ⟨1, 7, "spammer", "Eve", some "visit http site"⟩
      true).1.liveTimers = pendingState.liveTimers ∧
    (handleSpamDetection pendingState ⟨1, 7, "spammer", "Eve", some "visit http site"⟩
      true).2 = Outcome.spamRemoved "posting links" ∧
    (kickUserTimeout (handleSpamDetection pendingState
      ⟨1, 7, "spammer", "Eve", some "visit http site"⟩ true).1 1 7 "u" true).2 =
      Outcome.expired true "u" := by
  refine ⟨rfl, rfl, rfl, rfl⟩

/-! ### C1: the video-post / timer-fire race on a pending entry -/

/-- One call racing on a key: a video post (`handle_video_message`) or a timer callback
(`_kick_user_timeout`).  Each call runs its lock-protected check-and-remove atomically. -/
inductive RaceOp where
  | video (name : String) (now : ℚ)
  | timerFire (name : String) (gatewayOk : Bool)
  deriving DecidableEq, Repr

/-- Execute one racing call for the key `(cid, uid)`. -/
def raceStep (cid uid : Int) (s : BotState) : RaceOp → BotState × Outcome
  | .video nm now => handleVideoMessage s cid uid nm now
  | .timerFire nm g => kickUserTimeout s cid uid nm g

/-- Execute an arbitrary interleaving of racing calls, collecting all outcomes. -/
def raceRun (cid uid : Int) (s : BotState) : List RaceOp → BotState × List Outcome
  | [] => (s, [])
  | op :: ops =>
    let r := raceStep cid uid s op
    let rest := raceRun cid uid r.1 ops
    (rest.1, r.2 :: rest.2)

/-- Did a call consume the entry and produce a verification/expiry outcome? -/
def isConsuming : Outcome → Bool
  | .verified _ _ => true
  | .expired _ _ => true
  | _ => false

theorem raceStep_of_not_pending {cid uid : Int} {s : BotState} (op : RaceOp)
    (h : dlookup s.pendingUsers (cid, uid) = none) :
    raceStep cid uid s op = (s, Outcome.noop) := by
  cases op with
  | video nm now => simp [raceStep, handleVideoMessage, h]
  | timerFire nm g => simp [raceStep, kickUserTimeout, h]

theorem raceRun_of_not_pending {cid uid : Int} {s : BotState} (ops : List RaceOp)
    (h : dlookup s.pendingUsers (cid, uid) = none) :
    raceRun cid uid s ops = (s, List.replicate ops.length Outcome.noop) := by
  induction ops with
  | nil => rfl
  | cons op rest ih =>
    simp [raceRun, raceStep_of_not_pending op h, ih, List.replicate_succ]

theorem raceStep_consumes {cid uid : Int} {s : BotState} {e : PendingEntry} (op : RaceOp)
    (h : dlookup s.pendingUsers (cid, uid) = some e)
    (hv : ((cid, uid) : Key) ∉ s.verifiedUsers)
    (hnd : (s.pendingUsers.map Prod.fst).Nodup) :
    isConsuming (raceStep cid uid s op).2 = true ∧
    dlookup (raceStep cid uid s op).1.pendingUsers (cid, uid) = none := by
  have hd : dlookup (ddelete s.pendingUsers ((cid, uid) : Key)) (cid, uid) = none :=
    dlookup_ddelete_self _ hnd
  cases op with
  | video nm now =>
    simp only [raceStep]
    unfold handleVideoMessage
    by_cases hr : s.rewardSystemEnabled = true <;> simp [h, hr, isConsuming, hd]
  | timerFire nm g =>
    simp only [raceStep]
    unfold kickUserTimeout
    cases g <;> simp [h, hv, isConsuming, hd]

theorem raceStep_removes {cid uid : Int} {s : BotState} {e : PendingEntry} (op : RaceOp)
    (h : dlookup s.pendingUsers (cid, uid) = some e)
    (hnd : (s.pendingUsers.map Prod.fst).Nodup) :
    dlookup (raceStep cid uid s op).1.pendingUsers (cid, uid) = none ∧
    (isConsuming (raceStep cid uid s op).2 = true ∨
      (raceStep cid uid s op).2 = Outcome.noop) := by
  have hd : dlookup (ddelete s.pendingUsers ((cid, uid) : Key)) (cid, uid) = none :=
    dlookup_ddelete_self _ hnd
  cases op with
  | video nm now =>
    simp only [raceStep]
    unfold handleVideoMessage
    by_cases hr : s.rewardSystemEnabled = true <;> simp [h, hr, isConsuming, hd]
  | timerFire nm g =>
    simp only [raceStep]
    unfold kickUserTimeout
    by_cases hv : ((cid, uid) : Key) ∈ s.verifiedUsers
    · simp [h, hv, hd]
    · cases g <;> simp [h, hv, isConsuming, hd]

/-- C1 counterexample: the pending-and-verified state is reachable — a verified key
rejoins and `_handle_new_member` re-arms it — and there a single `_kick_user_timeout`
call observes the entry and removes it (line 260) yet returns at the verified check
(line 263), producing neither Verified nor Expired: the claimed "never neither"
fails on the code. -/
theorem race_neither_outcome_counterexample :
    (dlookup (handleNewMember verifiedRejoinState 1 7 "u" 0).1.pendingUsers
      ((1 : Int), (7 : Int))).isSome = true ∧
    ((1, 7) : Key) ∈ (handleNewMember verifiedRejoinState 1 7 "u" 0).1.verifiedUsers ∧
    (raceRun 1 7 (handleNewMember verifiedRejoinState 1 7 "u" 0).1
      [RaceOp.timerFire "u" true]).2.countP (fun o => isConsuming o) = 0 ∧
    dlookup (raceRun 1 7 (handleNewMember verifiedRejoinState 1 7 "u" 0).1
      [RaceOp.timerFire "u" true]).1.pendingUsers ((1 : Int), (7 : Int)) = none := by
  refine ⟨rfl, by decide, rfl, rfl⟩

/-- C1 (amended): for a pending key, any interleaving of `handle_video_message` and
`_kick_user_timeout` calls lets at most one call consume the entry — never both
outcomes — and every other call finds the entry absent and is a no-op; when the key is
additionally not in the verified set, a nonempty interleaving produces exactly one
consuming outcome (Verified or Expired).  For a pending key that is also verified
(reachable via a verified rejoin), a timer-fire winner removes the entry but produces
neither outcome. -/
theorem race_at_most_one_winner (cid uid : Int) (s : BotState) (ops : List RaceOp)
    (hp : (dlookup s.pendingUsers (cid, uid)).isSome = true)
    (hnd : (s.pendingUsers.map Prod.fst).Nodup) :
    (raceRun cid uid s ops).2.countP (fun o => isConsuming o) ≤ 1 ∧
    (∀ o ∈ (raceRun cid uid s ops).2, isConsuming o = true ∨ o = Outcome.noop) ∧
    (((cid, uid) : Key) ∉ s.verifiedUsers → ops ≠ [] →
      (raceRun cid uid s ops).2.countP (fun o => isConsuming o) = 1) := by
  cases ops with
  | nil =>
    refine ⟨by simp [raceRun], by simp [raceRun], fun _ hne => absurd rfl hne⟩
  | cons op rest =>
    obtain ⟨e, he⟩ := Option.isSome_iff_exists.mp hp
    have hrm := raceStep_removes op he hnd
    have hrest := raceRun_of_not_pending rest hrm.1
    have hzero : (List.replicate rest.length Outcome.noop).countP
        (fun o => isConsuming o) = 0 := by
      rw [List.countP_eq_zero]
      intro o ho
      rw [List.eq_of_mem_replicate ho]
      simp [isConsuming]
    refine ⟨?_, ?_, ?_⟩
    · simp only [raceRun, hrest, List.countP_cons, hzero]
      rcases hrm.2 with hcon | hnoop
      · simp [hcon]
      · simp [hnoop, isConsuming]
    · intro o ho
      simp only [raceRun, hrest, List.mem_cons] at ho
      rcases ho with rfl | ho
      · exact hrm.2.imp id id
      · exact Or.inr (List.eq_of_mem_replicate ho)
    · intro hv _
      have hc := raceStep_consumes op he hv hnd
      simp only [raceRun, hrest, List.countP_cons, hzero, hc.1]
      simp

/-- Witness for the amended C1: from the unverified `pendingState`, the interleaving
video-post, timer-fire, video-post yields exactly one consuming outcome. -/
theorem race_at_most_one_winner_witness :
    (raceRun 1 7 pendingState
      [RaceOp.video "u" 5, RaceOp.timerFire "u" true, RaceOp.video "u" 6]).2.countP
      (fun o => isConsuming o) = 1 :=
  (race_at_most_one_winner 1 7 pendingState
    [RaceOp.video "u" 5, RaceOp.timerFire "u" true, RaceOp.video "u" 6]
    rfl (by decide)).2.2 (by decide) (List.cons_ne_nil _ _)

/-! ### C3: interaction-mode duplicate messages arm at most one timer -/

/-- A sequence of `handle_text_message` calls for one key (name and arrival time of
each message), applied in order — the interleaving of duplicate first messages. -/
def runTextMessages (cid uid : Int) (s : BotState) : List (String × ℚ) → BotState
  | [] => s
  | c :: rest => runTextMessages cid uid (handleTextMessage s cid uid c.1 c.2).1 rest

theorem handleTextMessage_of_pending {cid uid : Int} {s : BotState} (nm : String) (now : ℚ)
    (h : (dlookup s.pendingUsers (cid, uid)).isSome = true) :
    handleTextMessage s cid uid nm now = (s, Outcome.noop) := by
  unfold handleTextMessage
  split
  · rfl
  · rw [if_neg]
    rintro ⟨h1, -⟩
    rw [Option.isNone_iff_eq_none] at h1
    rw [h1] at h
    simp at h

theorem runTextMessages_of_pending {cid uid : Int} {s : BotState}
    (calls : List (String × ℚ))
    (h : (dlookup s.pendingUsers (cid, uid)).isSome = true) :
    runTextMessages cid uid s calls = s := by
  induction calls with
  | nil => rfl
  | cons c rest ih =>
    unfold runTextMessages
    rw [handleTextMessage_of_pending c.1 c.2 h]
    exact ih

/-- C3: in interaction mode with the bot active, starting from a key that is untracked,
unverified and has no live timer, any sequence of `handle_text_message` calls leaves at
most one pending entry and at most one live timer for that key — and any nonempty
sequence leaves exactly one of each (the first call arms, all duplicates are no-ops). -/
theorem interaction_single_timer (cid uid : Int) (s : BotState)
    (calls : List (String × ℚ))
    (hIM : s.interactionMode = true) (hP : s.botPaused = false)
    (hv : ((cid, uid) : Key) ∉ s.verifiedUsers)
    (hc0 : s.pendingUsers.countP (fun p => p.1 = (cid, uid)) = 0)
    (ht0 : (s.liveTimers.filter (fun t => t.key = (cid, uid))).length = 0) :
    ((runTextMessages cid uid s calls).pendingUsers.countP
        (fun p => p.1 = (cid, uid)) ≤ 1 ∧
      ((runTextMessages cid uid s calls).liveTimers.filter
        (fun t => t.key = (cid, uid))).length ≤ 1) ∧
    (calls ≠ [] →
      (runTextMessages cid uid s calls).pendingUsers.countP
        (fun p => p.1 = (cid, uid)) = 1 ∧
      ((runTextMessages cid uid s calls).liveTimers.filter
        (fun t => t.key = (cid, uid))).length = 1) := by
  have h0 : dlookup s.pendingUsers (cid, uid) = none := by
    rw [dlookup_eq_none]
    intro hm
    obtain ⟨⟨k, v⟩, hkv, hk⟩ := List.mem_map.mp hm
    have hnp := List.countP_eq_zero.mp hc0 _ hkv
    simp at hnp
    exact hnp hk
  cases calls with
  | nil =>
    refine ⟨⟨?_, ?_⟩, fun hne => absurd rfl hne⟩
    · rw [runTextMessages, hc0]
      omega
    · rw [runTextMessages, ht0]
      omega
  | cons c rest =>
    have harm : (handleTextMessage s cid uid c.1 c.2).1 =
        { s with
            pendingUsers := dinsert s.pendingUsers (cid, uid) ⟨s.nextTimerId, c.2, c.1⟩,
            liveTimers := s.liveTimers ++ [⟨s.nextTimerId, (cid, uid), s.timeoutSeconds⟩],
            nextTimerId := s.nextTimerId + 1 } := by
      unfold handleTextMessage
      rw [if_neg (by simp [hIM, hP]), if_pos ⟨by simp [h0], hv⟩]
    have hcount : (handleTextMessage s cid uid c.1 c.2).1.pendingUsers.countP
        (fun p => p.1 = (cid, uid)) = 1 := by
      rw [harm]
      simp only [dinsert_of_lookup_none _ h0, List.countP_append, hc0]
      simp
    have htim : ((handleTextMessage s cid uid c.1 c.2).1.liveTimers.filter
        (fun t => t.key = (cid, uid))).length = 1 := by
      rw [harm]
      simp only [List.filter_append]
      rw [List.length_append, ht0]
      simp
    have hsome : (dlookup (handleTextMessage s cid uid c.1 c.2).1.pendingUsers
        (cid, uid)).isSome = true := by
      rw [harm]
      simp only []
      rw [dlookup_dinsert_self]
      rfl
    have hrun : runTextMessages cid uid s (c :: rest) =
        (handleTextMessage s cid uid c.1 c.2).1 := by
      unfold runTextMessages
      exact runTextMessages_of_pending rest hsome
    rw [hrun]
    exact ⟨⟨le_of_eq hcount, le_of_eq htim⟩, fun _ => ⟨hcount, htim⟩⟩

/-- Witness for C3: three duplicate first messages from `(1, 9)` leave exactly one
pending entry and one live timer. -/
theorem interaction_single_timer_witness :
    ((runTextMessages 1 9 { initialState with interactionMode := true }
        [("u", 0), ("u", 1), ("u", 2)]).pendingUsers.countP
      (fun p => p.1 = ((1 : Int), (9 : Int))) = 1) ∧
    ((runTextMessages 1 9 { initialState with interactionMode := true }
        [("u", 0), ("u", 1), ("u", 2)]).liveTimers.filter
      (fun t => t.key = ((1 : Int), (9 : Int)))).length = 1 :=
  (interaction_single_timer 1 9 { initialState with interactionMode := true }
    [("u", 0), ("u", 1), ("u", 2)] rfl rfl (by decide) rfl rfl).2
    (List.cons_ne_nil _ _)

/-! ### C6: leaderboard ordering, stability and truncation -/

theorem sortByPointsDesc_perm (l : List (Key × Int)) :
    List.Perm (sortByPointsDesc l) l :=
  List.perm_insertionSort pointsGE l

theorem sortByPointsDesc_sorted (l : List (Key × Int)) :
    (sortByPointsDesc l).Pairwise pointsGE :=
  List.sorted_insertionSort pointsGE l

/-- Stability of the leaderboard sort: for every point value `p`, the entries with
exactly `p` points appear in the sorted list in exactly their ledger (insertion)
order. -/
theorem sortByPointsDesc_stable (l : List (Key × Int)) (p : Int) :
    (sortByPointsDesc l).filter (fun e => e.2 = p) =
      l.filter (fun e => e.2 = p) := by
  have hperm : List.Perm ((sortByPointsDesc l).filter (fun e => e.2 = p))
      (l.filter (fun e => e.2 = p)) :=
    (sortByPointsDesc_perm l).filter _
  have hpw : (l.filter (fun e => e.2 = p)).Pairwise pointsGE := by
    apply List.pairwise_of_forall_mem_list
    intro a ha b hb
    have hap : a.2 = p := by simpa using (List.mem_filter.mp ha).2
    have hbp : b.2 = p := by simpa using (List.mem_filter.mp hb).2
    unfold pointsGE
    rw [hap, hbp]
  have hsub : List.Sublist (l.filter (fun e => e.2 = p)) (sortByPointsDesc l) :=
    List.sublist_insertionSort hpw (List.filter_sublist l)
  have hsub2 : List.Sublist (l.filter (fun e => e.2 = p))
      ((sortByPointsDesc l).filter (fun e => e.2 = p)) := by
    have hself : (l.filter (fun e => e.2 = p)).filter (fun e => e.2 = p) =
        l.filter (fun e => e.2 = p) :=
      List.filter_eq_self.mpr (fun a ha => (List.mem_filter.mp ha).2)
    have := hsub.filter (fun e => decide (e.2 = p))
    rwa [hself] at this
  exact (hsub2.eq_of_length hperm.symm.length_eq).symm

/-- The concrete ledger of the example from the spec: A and B tie at 100 points with A
inserted first, C has 50. -/
def tieLedgerState : BotState :=
  { initialState with
      userPoints := [((1, 1), 100), ((1, 2), 100), ((1, 3), 50)] }

/-- C6: the leaderboard has at most 10 entries, is sorted by descending points, is a
truncation of a permutation of the whole ledger that keeps every equal-points group in
ledger insertion order, and on the ledger A=100, B=100, C=50 (A inserted before B) it
lists A, then B, then C. -/
theorem leaderboard_sorted_stable_top10 (s : BotState) (p : Int) :
    (leaderboardTop s).length ≤ 10 ∧
    (leaderboardTop s).Pairwise pointsGE ∧
    List.Perm (sortByPointsDesc s.userPoints) s.userPoints ∧
    (sortByPointsDesc s.userPoints).filter (fun e => e.2 = p) =
      s.userPoints.filter (fun e => e.2 = p) ∧
    leaderboardTop tieLedgerState =
      [((1, 1), 100), ((1, 2), 100), ((1, 3), 50)] := by
  refine ⟨?_, ?_, sortByPointsDesc_perm _, sortByPointsDesc_stable _ _, ?_⟩
  · unfold leaderboardTop
    exact List.length_take_le 10 _
  · exact (sortByPointsDesc_sorted s.userPoints).sublist (List.take_sublist 10 _)
  · rfl

/-! ### C10: scheduled_mode / active_hours never influence moderation -/

/-- Overwrite the schedule settings (`scheduled_mode`, `active_hours`). -/
def setSched (s : BotState) (b : Bool) (sh eh : Int) : BotState :=
  { s with scheduledMode := b, activeHoursStart := sh, activeHoursEnd := eh }

/-- Normalize the schedule settings to their `__init__` defaults; two states are
schedule-equivalent iff their `eraseSched` images coincide. -/
def eraseSched (s : BotState) : BotState :=
  setSched s false 8 22

theorem setSched_eraseSched (s : BotState) :
    setSched (eraseSched s) s.scheduledMode s.activeHoursStart s.activeHoursEnd = s := by
  cases s
  rfl

theorem eraseSched_setSched (s : BotState) (b : Bool) (sh eh : Int) :
    eraseSched (setSched s b sh eh) = eraseSched s := by
  cases s
  rfl

theorem handleNewMember_setSched (s : BotState) (b : Bool) (sh eh : Int)
    (cid uid : Int) (nm : String) (now : ℚ) :
    handleNewMember (setSched s b sh eh) cid uid nm now =
      (setSched (handleNewMember s cid uid nm now).1 b sh eh,
       (handleNewMember s cid uid nm now).2) := by
  cases s
  unfold handleNewMember setSched
  dsimp only
  split_ifs <;> rfl

theorem handleTextMessage_setSched (s : BotState) (b : Bool) (sh eh : Int)
    (cid uid : Int) (nm : String) (now : ℚ) :
    handleTextMessage (setSched s b sh eh) cid uid nm now =
      (setSched (handleTextMessage s cid uid nm now).1 b sh eh,
       (handleTextMessage s cid uid nm now).2) := by
  cases s
  unfold handleTextMessage setSched
  dsimp only
  split_ifs <;> rfl

theorem handleVideoMessage_setSched (s : BotState) (b : Bool) (sh eh : Int)
    (cid uid : Int) (nm : String) (now : ℚ) :
    handleVideoMessage (setSched s b sh eh) cid uid nm now =
      (setSched (handleVideoMessage s cid uid nm now).1 b sh eh,
       (handleVideoMessage s cid uid nm now).2) := by
  cases s
  unfold handleVideoMessage setSched
  dsimp only
  cases hdl : dlookup _ ((cid, uid) : Key) <;> split_ifs <;> rfl

theorem kickUserTimeout_setSched (s : BotState) (b : Bool) (sh eh : Int)
    (cid uid : Int) (nm : String) (g : Bool) :
    kickUserTimeout (setSched s b sh eh) cid uid nm g =
      (setSched (kickUserTimeout s cid uid nm g).1 b sh eh,
       (kickUserTimeout s cid uid nm g).2) := by
  cases s
  unfold kickUserTimeout setSched
  dsimp only
  split_ifs <;> rfl

theorem handleSpamDetection_setSched (s : BotState) (b : Bool) (sh eh : Int)
    (msg : IncomingMessage) (g : Bool) :
    handleSpamDetection (setSched s b sh eh) msg g =
      (setSched (handleSpamDetection s msg g).1 b sh eh,
       (handleSpamDetection s msg g).2) := by
  cases s
  unfold handleSpamDetection handleSpamViolation bumpStat setSched
  dsimp only
  split_ifs <;> first
    | rfl
    | (cases hf : List.find? _ _ <;> rfl)

theorem scheduleCommand_eraseSched (s : BotState) (a : ScheduleArgs) :
    eraseSched (scheduleCommand s a).1 = eraseSched s := by
  cases s
  cases a with
  | query => rfl
  | toggle => rfl
  | hours startH endH =>
    unfold scheduleCommand eraseSched setSched
    dsimp only
    split_ifs <;> rfl
  | malformed => rfl

/-- Transport schedule-independence of one operation to schedule-equivalent states. -/
theorem sched_transport {F : BotState → BotState × Outcome}
    (hF : ∀ s b sh eh, F (setSched s b sh eh) =
      (setSched (F s).1 b sh eh, (F s).2))
    {s₁ s₂ : BotState} (h : eraseSched s₁ = eraseSched s₂) :
    eraseSched (F s₁).1 = eraseSched (F s₂).1 ∧ (F s₁).2 = (F s₂).2 := by
  have h1 := hF (eraseSched s₁) s₁.scheduledMode s₁.activeHoursStart s₁.activeHoursEnd
  rw [setSched_eraseSched] at h1
  have h2 := hF (eraseSched s₂) s₂.scheduledMode s₂.activeHoursStart s₂.activeHoursEnd
  rw [setSched_eraseSched] at h2
  rw [h] at h1
  constructor
  · rw [h1, h2]
    dsimp only
    rw [eraseSched_setSched, eraseSched_setSched]
  · rw [h1, h2]

/-- C10: two runs differing only in `scheduled_mode` / `active_hours` take the same
transition (up to those very fields) with the same outcome under every join,
first-interaction, video-post, timer-fire and spam-detection operation; and the
`/schedule` command itself mutates nothing outside those fields. -/
theorem schedule_noninterference (s₁ s₂ : BotState)
    (h : eraseSched s₁ = eraseSched s₂)
    (cid uid : Int) (nm : String) (now : ℚ) (g : Bool) (msg : IncomingMessage)
    (a : ScheduleArgs) :
    (eraseSched (handleNewMember s₁ cid uid nm now).1 =
        eraseSched (handleNewMember s₂ cid uid nm now).1 ∧
      (handleNewMember s₁ cid uid nm now).2 = (handleNewMember s₂ cid uid nm now).2) ∧
    (eraseSched (handleTextMessage s₁ cid uid nm now).1 =
        eraseSched (handleTextMessage s₂ cid uid nm now).1 ∧
      (handleTextMessage s₁ cid uid nm now).2 = (handleTextMessage s₂ cid uid nm now).2) ∧
    (eraseSched (handleVideoMessage s₁ cid uid nm now).1 =
        eraseSched (handleVideoMessage s₂ cid uid nm now).1 ∧
      (handleVideoMessage s₁ cid uid nm now).2 =
        (handleVideoMessage s₂ cid uid nm now).2) ∧
    (eraseSched (kickUserTimeout s₁ cid uid nm g).1 =
        eraseSched (kickUserTimeout s₂ cid uid nm g).1 ∧
      (kickUserTimeout s₁ cid uid nm g).2 = (kickUserTimeout s₂ cid uid nm g).2) ∧
    (eraseSched (handleSpamDetection s₁ msg g).1 =
        eraseSched (handleSpamDetection s₂ msg g).1 ∧
      (handleSpamDetection s₁ msg g).2 = (handleSpamDetection s₂ msg g).2) ∧
    eraseSched (scheduleCommand s₁ a).1 = eraseSched s₁ := by
  refine ⟨?_, ?_, ?_, ?_, ?_, scheduleCommand_eraseSched s₁ a⟩
  · exact @sched_transport (fun s => handleNewMember s cid uid nm now)
      (fun s b sh eh => handleNewMember_setSched s b sh eh cid uid nm now) s₁ s₂ h
  · exact @sched_transport (fun s => handleTextMessage s cid uid nm now)
      (fun s b sh eh => handleTextMessage_setSched s b sh eh cid uid nm now) s₁ s₂ h
  · exact @sched_transport (fun s => handleVideoMessage s cid uid nm now)
      (fun s b sh eh => handleVideoMessage_setSched s b sh eh cid uid nm now) s₁ s₂ h
  · exact @sched_transport (fun s => kickUserTimeout s cid uid nm g)
      (fun s b sh eh => kickUserTimeout_setSched s b sh eh cid uid nm g) s₁ s₂ h
  · exact @sched_transport (fun s => handleSpamDetection s msg g)
      (fun s b sh eh => handleSpamDetection_setSched s b sh eh msg g) s₁ s₂ h

/-- A schedule-variant of `pendingState`: scheduled mode on, different active hours. -/
def pendingStateSched : BotState :=
  { pendingState with scheduledMode := true, activeHoursStart := 0, activeHoursEnd := 5 }

/-- Witness for C10: `pendingState` and its schedule-variant produce the same outcome
on a video post and on a timer fire. -/
theorem schedule_noninterference_witness :
    (handleVideoMessage pendingState 1 7 "u" 5).2 =
      (handleVideoMessage pendingStateSched 1 7 "u" 5).2 ∧
    (kickUserTimeout pendingState 1 7 "u" true).2 =
      (kickUserTimeout pendingStateSched 1 7 "u" true).2 := by
  have h := schedule_noninterference pendingState pendingStateSched rfl 1 7 "u" 5 true
    ⟨1, 7, "x", "y", none⟩ ScheduleArgs.toggle
  exact ⟨h.2.2.1.2, h.2.2.2.1.2⟩

end VideoKickBot
